import Mathlib

/-!
Shallow embedding of the block validation core of `etclient`
(`src/validator/mod.rs`), together with theorems settling the claims of
the natural-language specification against it.

Machine integers (`U256`, `Gas`, `H256`, `H64`, `u64`) are modelled as
`Nat`; all arithmetic in the validator stays far below `2^256` on the
inputs considered, and `Gas`/`U256` subtraction in the source never
underflows on the paths modelled (the subtrahend is a floor-division of
the minuend). External collaborators (Keccak/RLP hashing, the Ethash
DAG, the EVM executor, the trie-backed state store, the `patch` crate's
fork constants and the `blockchain` crate's chain index) are either
parameters of the definitions or are modelled from the specification's
description of their interfaces; every such modelling is marked in its
doc comment.
-/

namespace EtClient

/-- A block header, following the data model of the `block` crate as the
spec describes it (hashes and 256-bit words are `Nat`). -/
structure Header where
  parentHash : Nat
  ommersHash : Nat
  beneficiary : Nat
  stateRoot : Nat
  transactionsRoot : Nat
  receiptsRoot : Nat
  logsBloom : Nat
  difficulty : Nat
  number : Nat
  gasLimit : Nat
  gasUsed : Nat
  timestamp : Nat
  extraData : List Nat
  mixHash : Nat
  nonce : Nat
deriving DecidableEq

/-- A transaction action: a call to an address or a contract creation. -/
inductive TransactionAction where
  | call (address : Nat)
  | create
deriving DecidableEq

/-- An unvalidated transaction as carried by a block. -/
structure Transaction where
  nonce : Nat
  gasPrice : Nat
  gasLimit : Nat
  action : TransactionAction
  value : Nat
  input : List Nat
  v : Nat
  r : Nat
  s : Nat
deriving DecidableEq

/-- A block: header, transactions, ommer headers. -/
structure Block where
  header : Header
  transactions : List Transaction
  ommers : List Header
deriving DecidableEq

/-- A log entry produced by the VM. -/
structure Log where
  address : Nat
  topics : List Nat
  data : List Nat
deriving DecidableEq

/-- A receipt, as built by `validate_state`. -/
structure Receipt where
  usedGas : Nat
  logs : List Log
  logsBloom : Nat
  stateRoot : Nat
deriving DecidableEq

/-- A validated transaction (`sputnikvm::ValidTransaction`): the shape
the validator feeds to the VM, including for reward pseudo-transactions. -/
structure ValidTransaction where
  caller : Option Nat
  gasPrice : Nat
  gasLimit : Nat
  action : TransactionAction
  value : Nat
  input : List Nat
  nonce : Nat
deriving DecidableEq

/-- A header together with its cumulative difficulty. -/
structure TotalHeader where
  header : Header
  total : Nat
deriving DecidableEq

/-- Cumulative difficulty of a child: its own difficulty plus the
parent's total. -/
def TotalHeader.fromParent (h : Header) (parent : TotalHeader) : TotalHeader :=
  ⟨h, h.difficulty + parent.total⟩

/-- Genesis total equals its own difficulty. -/
def TotalHeader.fromGenesis (h : Header) : TotalHeader :=
  ⟨h, h.difficulty⟩

/-- Direct translation of `validate_gas_limit` in `src/validator/mod.rs`:
strict drift bounds of `last/1024` around the parent gas limit, and an
absolute floor of 5000. -/
def validate_gas_limit (last_gas_limit this_gas_limit : Nat) : Bool :=
  let lower_bound := last_gas_limit - last_gas_limit / 1024
  let upper_bound := last_gas_limit + last_gas_limit / 1024
  decide (this_gas_limit < upper_bound) && decide (lower_bound < this_gas_limit) &&
    decide (5000 ≤ this_gas_limit)

/-- Direct translation of `calculate_difficulty` in `src/validator/mod.rs`,
generic over the rule set's base-target and difficulty-bomb functions
(the `Base` and `Bomb` type parameters of the source). Note the source
clamps the base target to 125000 before adding the bomb, and clamps
again after. -/
def calculate_difficulty (base_target_difficulty : Nat → Nat → Nat → Nat)
    (difficulty_bomb : Nat → Nat)
    (last_difficulty last_timestamp this_number this_timestamp : Nat) : Nat :=
  let min_difficulty := 125000
  let target := base_target_difficulty last_difficulty last_timestamp this_timestamp
  let target := max min_difficulty target
  let target := max min_difficulty (target + difficulty_bomb this_number)
  target

/-- The difficulty formula exactly as the spec words it:
`D = max(125000, base_target + difficulty_bomb)`, with no intermediate
clamp of the base target. Stated for comparison with
`calculate_difficulty`. -/
def calculate_difficulty_specFormula (base_target_difficulty : Nat → Nat → Nat → Nat)
    (difficulty_bomb : Nat → Nat)
    (last_difficulty last_timestamp this_number this_timestamp : Nat) : Nat :=
  max 125000
    (base_target_difficulty last_difficulty last_timestamp this_timestamp +
      difficulty_bomb this_number)

/-- Modelled from the spec: the Frontier base target difficulty of the
external `patch` crate — adjust by `difficulty/2048` upward when the
block interval is under the 13 s duration threshold, downward otherwise. -/
def frontier_base_target (last_difficulty last_timestamp this_timestamp : Nat) : Nat :=
  if this_timestamp < last_timestamp + 13 then
    last_difficulty + last_difficulty / 2048
  else
    last_difficulty - last_difficulty / 2048

/-- Modelled from the spec: the difficulty bomb of the external `patch`
crate, `floor(2 ^ (number / 100000 - 2))` (zero while the exponent is
negative). -/
def difficulty_bomb_frontier (number : Nat) : Nat :=
  if number / 100000 < 2 then 0 else 2 ^ (number / 100000 - 2)

/-- The five fork rule sets dispatched by `EthereumProcessor::put`. -/
inductive PatchKind where
  | frontier
  | homestead
  | eip150
  | eip160
  | ecip1017
deriving DecidableEq

/-- The height-based rule-set selection of `EthereumProcessor::put`
(the `if`-chain on `block.header.number`). -/
def selectPatch (number : Nat) : PatchKind :=
  if number < 1150000 then PatchKind.frontier
  else if number < 2500000 then PatchKind.homestead
  else if number < 3000000 then PatchKind.eip150
  else if number < 5000001 then PatchKind.eip160
  else PatchKind.ecip1017

/-- Modelled from the spec: the ethash crate's
`cross_boundary(difficulty) = 2^256 / difficulty` (integer division). -/
def cross_boundary (difficulty : Nat) : Nat :=
  2 ^ 256 / difficulty

/-- Direct translation of `EthereumValidator::validate_consensus`:
run hashimoto on the partial header hash and nonce, require the mix hash
to match and the nonce (as a 256-bit value) to be at most the boundary.
`hashimoto` (the DAG) and the partial header hash (Keccak of RLP) are
external and passed as parameters. -/
def validate_consensus (hashimoto : Nat → Nat → Nat × Nat)
    (pHash : Header → Nat) (header : Header) : Bool :=
  let mixAndResult := hashimoto (pHash header) header.nonce
  let nonce_value := header.nonce
  (mixAndResult.1 == header.mixHash) &&
    decide (nonce_value ≤ cross_boundary header.difficulty)

/-- Modelled from the spec: an Ethash light DAG is characterised by its
epoch; epochs are 30000 blocks wide. -/
structure LightDAG where
  epoch : Nat
deriving DecidableEq

/-- Modelled from the spec: building a DAG for a height selects that
height's epoch. -/
def LightDAG.new (number : Nat) : LightDAG :=
  ⟨number / 30000⟩

/-- Modelled from the spec: a DAG is valid for a height iff the height
falls in its epoch. -/
def LightDAG.isValidFor (dag : LightDAG) (number : Nat) : Bool :=
  dag.epoch == number / 30000

/-- Modelled from the spec: the `blockchain` crate's chain index — a map
from header hash to `TotalHeader` plus the ordered recent-hash ring
(most recent first). -/
structure Chain where
  map : List (Nat × TotalHeader)
  recent : List Nat
deriving DecidableEq

/-- Chain lookup by header hash. -/
def Chain.fetch (c : Chain) (h : Nat) : Option TotalHeader :=
  (c.map.find? (fun p => p.1 == h)).map Prod.snd

/-- Modelled from the spec: insertion under the header hash, appending
to the recent ring (the hash function is Keccak of RLP, a parameter). -/
def Chain.putHeader (headerHash : Header → Nat) (c : Chain) (th : TotalHeader) : Chain :=
  ⟨(headerHash th.header, th) :: c.map, headerHash th.header :: c.recent⟩

/-- Up to `n` most recent header hashes, reverse-chronological. -/
def Chain.lastHashes (c : Chain) (n : Nat) : List Nat :=
  c.recent.take n

/-- Direct translation of `EthereumValidator::new`: the two `assert!`
calls become the `none` branch (an assertion failure aborts, so a
constructed validator exists exactly when both preconditions hold). -/
structure EthereumValidator where
  block : Block
  parentHeader : Header
  database : Nat
  dag : LightDAG
  mostRecentBlockHashes : List Nat
deriving DecidableEq

/-- Constructor of `EthereumValidator` with its assertions: the DAG must
cover the block's number and the recent-hash slice must have length at
least `min(number, 256)`. -/
def EthereumValidator.new (block : Block) (parentHeader : Header) (database : Nat)
    (dag : LightDAG) (mostRecentBlockHashes : List Nat) : Option EthereumValidator :=
  if dag.isValidFor block.header.number &&
      decide (min block.header.number 256 ≤ mostRecentBlockHashes.length) then
    some ⟨block, parentHeader, database, dag, mostRecentBlockHashes⟩
  else
    none

/-- The header parameters handed to the VM
(`sputnikvm::HeaderParams::from(&header)`), per the spec's interface. -/
structure HeaderParams where
  beneficiary : Nat
  difficulty : Nat
  number : Nat
  timestamp : Nat
  gasLimit : Nat
deriving DecidableEq

/-- Projection of a header onto its VM-visible parameters. -/
def HeaderParams.ofHeader (h : Header) : HeaderParams :=
  ⟨h.beneficiary, h.difficulty, h.number, h.timestamp, h.gasLimit⟩

/-- Model of the external collaborators used by `validate_state`: the
stateful VM (`sputnikvm_stateful::MemoryStateful`), the bloom hashing of
the `bloom` crate, the receipts-trie root, and the rule set's reward
schedule. A stateful view is an abstract `Nat` token; `execute` returns
the new view, the logs and the real used gas. -/
structure VMModel where
  toValid : Nat → Transaction → Option ValidTransaction
  execute : Nat → ValidTransaction → HeaderParams → List Nat → Nat × List Log × Nat
  root : Nat → Nat
  bloomBits : Nat → Nat
  receiptsRoot : List Receipt → Nat
  blockReward : Nat → Nat → Nat
  uncleReward : Nat → Nat

/-- The per-transaction logs bloom built by `validate_state`: starting
from the empty bloom, set the log's address and every topic (bloom
union is bitwise or). -/
def txLogsBloom (M : VMModel) (logs : List Log) : Nat :=
  logs.foldl
    (fun b log => log.topics.foldl (fun b' t => b' ||| M.bloomBits t) (b ||| M.bloomBits log.address))
    0

/-- The mutable locals of `validate_state`: the stateful view and the
three accumulators (`receipts`, `block_logs_bloom`, `block_used_gas`). -/
structure ExecAcc where
  state : Nat
  receipts : List Receipt
  bloom : Nat
  usedGas : Nat
deriving DecidableEq

/-- The transaction loop of `validate_state`: convert each transaction
with `to_valid` (a failure aborts the whole loop — the source's
`Err(_) => return false`), execute it, build its receipt and accumulate
bloom, used gas and receipts in block order. -/
def execTxs (M : VMModel) (params : HeaderParams) (hashes : List Nat)
    (acc : ExecAcc) : List Transaction → Option ExecAcc
  | [] => some acc
  | tx :: rest =>
    match M.toValid acc.state tx with
    | none => none
    | some valid =>
      let r := M.execute acc.state valid params hashes
      let st := r.1
      let logs := r.2.1
      let used := r.2.2
      let lb := txLogsBloom M logs
      let receipt : Receipt := ⟨used, logs, lb, M.root st⟩
      execTxs M params hashes
        ⟨st, acc.receipts ++ [receipt], acc.bloom ||| lb, acc.usedGas + used⟩ rest

/-- The reward pseudo-transactions built at the end of `validate_state`:
one call to the beneficiary carrying the block reward, then one call per
ommer carrying the uncle reward; all with no caller, zero gas price, gas
limit 1000000, empty input and nonce zero. -/
def rewardTxs (M : VMModel) (block : Block) : List ValidTransaction :=
  ⟨none, 0, 1000000, TransactionAction.call block.header.beneficiary,
    M.blockReward block.header.number block.ommers.length, [], 0⟩ ::
  block.ommers.map (fun uncle =>
    ⟨none, 0, 1000000, TransactionAction.call uncle.beneficiary,
      M.uncleReward (block.header.number - uncle.number), [], 0⟩)

/-- Execution of the reward pseudo-transactions: each `stateful.execute`
call only advances the stateful view; the local accumulators are not
mentioned by that part of the source. -/
def applyRewards (M : VMModel) (block : Block) (params : HeaderParams)
    (hashes : List Nat) (acc : ExecAcc) : ExecAcc :=
  { acc with
    state := (rewardTxs M block).foldl (fun st tx => (M.execute st tx params hashes).1) acc.state }

/-- Direct translation of `EthereumValidator::validate_state`: open a
view at the parent's state root, run the transaction loop (any
`to_valid` failure yields `false`), apply rewards, then require the four
final equalities on state root, receipts root, logs bloom and used gas. -/
def validateState (M : VMModel) (block : Block) (parentHeader : Header)
    (hashes : List Nat) : Bool :=
  let params := HeaderParams.ofHeader block.header
  match execTxs M params hashes ⟨parentHeader.stateRoot, [], 0, 0⟩ block.transactions with
  | none => false
  | some acc =>
    let final := applyRewards M block params hashes acc
    (block.header.stateRoot == M.root final.state) &&
      (block.header.receiptsRoot == M.receiptsRoot final.receipts) &&
      (block.header.logsBloom == final.bloom) &&
      (block.header.gasUsed == final.usedGas)

/-- The external functions `EthereumProcessor::put` depends on but does
not define: the header hash (Keccak of RLP) and the run of a rule-set
bound validator (`Validator::validate`), which may write trie nodes
through into the database and reports a verdict. -/
structure Collab where
  headerHash : Header → Nat
  runValidator : PatchKind → Block → Header → Nat → List Nat → Bool × Nat

/-- The processor's owned state: the trie database, the chain index and
the DAG. -/
structure ProcessorState where
  database : Nat
  chain : Chain
  dag : LightDAG
deriving DecidableEq

/-- Direct translation of `EthereumProcessor::put`: fetch the parent
(absent parent rejects immediately), capture the recent hashes, rebuild
the DAG if it does not cover the block's height, select the rule set by
height, run the validator, and insert the `TotalHeader` into the chain
only on a `true` verdict. -/
def EthereumProcessor.put (C : Collab) (s : ProcessorState) (block : Block) :
    Bool × ProcessorState :=
  match s.chain.fetch block.header.parentHash with
  | none => (false, s)
  | some parent =>
    let mostRecentBlockHashes := s.chain.lastHashes 256
    let dag := if s.dag.isValidFor block.header.number then s.dag
               else LightDAG.new block.header.number
    let s1 : ProcessorState := { s with dag := dag }
    let verdict := C.runValidator (selectPatch block.header.number) block parent.header
      s1.database mostRecentBlockHashes
    let s2 : ProcessorState := { s1 with database := verdict.2 }
    if verdict.1 then
      (true, { s2 with
        chain := Chain.putHeader C.headerHash s2.chain
          (TotalHeader.fromParent block.header parent) })
    else
      (false, s2)

/-! ### Helper lemmas -/

/-- Unfolding lemma for the consensus check, shared by the consensus
theorems. -/
lemma validate_consensus_eq_true_iff (hashimoto : Nat → Nat → Nat × Nat)
    (pHash : Header → Nat) (h : Header) :
    validate_consensus hashimoto pHash h = true ↔
      ((hashimoto (pHash h) h.nonce).1 = h.mixHash ∧
        h.nonce ≤ 2 ^ 256 / h.difficulty) := by
  simp [validate_consensus, cross_boundary, Bool.and_eq_true, beq_iff_eq,
    decide_eq_true_eq]

/-! ### Claim theorems -/

/-- C1 counterexample: with the Frontier rule set (selected for height
250000), parent difficulty 100, parent timestamp 0 and child timestamp
20, `calculate_difficulty` returns 125001, while the spec's formula
`max(125000, base_target + difficulty_bomb)` gives 125000 — the source
does clamp the base target to 125000 on its own before adding the bomb. -/
theorem calculate_difficulty_claim_counterexample :
    calculate_difficulty frontier_base_target difficulty_bomb_frontier 100 0 250000 20 = 125001 ∧
    calculate_difficulty_specFormula frontier_base_target difficulty_bomb_frontier
      100 0 250000 20 = 125000 := by
  constructor <;> decide

/-- C1 (amended): for every base-target function, bomb function and
inputs, `calculate_difficulty` returns
`max(125000, max(125000, base_target) + difficulty_bomb)` — the base
target is clamped to 125000 before the bomb is added, then the sum is
clamped again. -/
theorem calculate_difficulty_clamps_base_before_bomb
    (base_target_difficulty : Nat → Nat → Nat → Nat) (difficulty_bomb : Nat → Nat)
    (last_difficulty last_timestamp this_number this_timestamp : Nat) :
    calculate_difficulty base_target_difficulty difficulty_bomb
        last_difficulty last_timestamp this_number this_timestamp =
      max 125000
        (max 125000 (base_target_difficulty last_difficulty last_timestamp this_timestamp) +
          difficulty_bomb this_number) := rfl

/-- C2 counterexample: `validate_gas_limit 5000 5000` is not `false` —
the drift bounds at parent limit 5000 are 4996 and 5004, both of which
5000 strictly clears, and 5000 meets the absolute floor. -/
theorem validate_gas_limit_5000_not_false :
    ¬ validate_gas_limit 5000 5000 = false := by decide

/-- C2 (amended): `validate_gas_limit 5000 5000` is `true`;
`validate_gas_limit 5000000 5000000` is `true`; and
`validate_gas_limit 5000000 (5000000 + 5000000 / 1024)` is `false`
(strict upper bound). -/
theorem validate_gas_limit_scenarios :
    validate_gas_limit 5000 5000 = true ∧
    validate_gas_limit 5000000 5000000 = true ∧
    validate_gas_limit 5000000 (5000000 + 5000000 / 1024) = false := by
  refine ⟨?_, ?_, ?_⟩ <;> decide

/-- C4: the rule-set selection of `EthereumProcessor::put` by block
height — up to 1149999 Frontier, 1150000–2499999 Homestead,
2500000–2999999 EIP-150, 3000000–5000000 EIP-160, and from 5000001 on
ECIP-1017. -/
theorem selectPatch_boundaries (n : Nat) :
    (n ≤ 1149999 → selectPatch n = PatchKind.frontier) ∧
    (1150000 ≤ n ∧ n ≤ 2499999 → selectPatch n = PatchKind.homestead) ∧
    (2500000 ≤ n ∧ n ≤ 2999999 → selectPatch n = PatchKind.eip150) ∧
    (3000000 ≤ n ∧ n ≤ 5000000 → selectPatch n = PatchKind.eip160) ∧
    (5000001 ≤ n → selectPatch n = PatchKind.ecip1017) := by
  unfold selectPatch
  refine ⟨fun h => ?_, fun h => ?_, fun h => ?_, fun h => ?_, fun h => ?_⟩ <;>
    · split_ifs with h1 h2 h3 h4 <;> first | rfl | omega

/-- C4 witness: the selection evaluated at each boundary height named by
the spec. -/
theorem selectPatch_boundaries_witness :
    selectPatch 1149999 = PatchKind.frontier ∧
    selectPatch 1150000 = PatchKind.homestead ∧
    selectPatch 2499999 = PatchKind.homestead ∧
    selectPatch 2500000 = PatchKind.eip150 ∧
    selectPatch 2999999 = PatchKind.eip150 ∧
    selectPatch 3000000 = PatchKind.eip160 ∧
    selectPatch 5000000 = PatchKind.eip160 ∧
    selectPatch 5000001 = PatchKind.ecip1017 :=
  ⟨(selectPatch_boundaries 1149999).1 (by decide),
   (selectPatch_boundaries 1150000).2.1 ⟨by decide, by decide⟩,
   (selectPatch_boundaries 2499999).2.1 ⟨by decide, by decide⟩,
   (selectPatch_boundaries 2500000).2.2.1 ⟨by decide, by decide⟩,
   (selectPatch_boundaries 2999999).2.2.1 ⟨by decide, by decide⟩,
   (selectPatch_boundaries 3000000).2.2.2.1 ⟨by decide, by decide⟩,
   (selectPatch_boundaries 5000000).2.2.2.1 ⟨by decide, by decide⟩,
   (selectPatch_boundaries 5000001).2.2.2.2 (by decide)⟩

/-- C5: for every hashimoto function, partial-hash function and header,
`validate_consensus` accepts exactly when the returned mix hash equals
the header's mix hash and the nonce, as a 256-bit value, is at most
`2 ^ 256 / difficulty`. -/
theorem validate_consensus_characterisation (hashimoto : Nat → Nat → Nat × Nat)
    (pHash : Header → Nat) (h : Header) :
    validate_consensus hashimoto pHash h = true ↔
      ((hashimoto (pHash h) h.nonce).1 = h.mixHash ∧
        h.nonce ≤ 2 ^ 256 / h.difficulty) :=
  validate_consensus_eq_true_iff hashimoto pHash h

/-- C6: for every parent limit `L` and candidate limit `N`,
`validate_gas_limit L N` accepts exactly when
`L - L / 1024 < N < L + L / 1024` and `5000 ≤ N`. -/
theorem validate_gas_limit_iff (L N : Nat) :
    validate_gas_limit L N = true ↔
      (L - L / 1024 < N ∧ N < L + L / 1024 ∧ 5000 ≤ N) := by
  simp only [validate_gas_limit, Bool.and_eq_true, decide_eq_true_eq]
  tauto

/-- C9: when the difficulty is nonzero and at most `2 ^ 192`, every
64-bit nonce clears the boundary, so the consensus check reduces to the
mix-hash comparison alone. -/
theorem validate_consensus_small_difficulty (hashimoto : Nat → Nat → Nat × Nat)
    (pHash : Header → Nat) (h : Header)
    (hd0 : 0 < h.difficulty) (hd : h.difficulty ≤ 2 ^ 192) (hn : h.nonce < 2 ^ 64) :
    validate_consensus hashimoto pHash h = true ↔
      (hashimoto (pHash h) h.nonce).1 = h.mixHash := by
  rw [validate_consensus_eq_true_iff]
  have hb : 2 ^ 64 ≤ 2 ^ 256 / h.difficulty := by
    rw [Nat.le_div_iff_mul_le hd0]
    calc 2 ^ 64 * h.difficulty ≤ 2 ^ 64 * 2 ^ 192 := Nat.mul_le_mul_left _ hd
      _ = 2 ^ 256 := by norm_num
  have : h.nonce ≤ 2 ^ 256 / h.difficulty := le_trans (Nat.le_of_lt hn) hb
  exact ⟨fun hx => hx.1, fun hx => ⟨hx, this⟩⟩

/-- A concrete header for the consensus witness: difficulty 1, nonce 0,
mix hash 7. -/
def consensusWitnessHeader : Header :=
  ⟨0, 0, 0, 0, 0, 0, 0, 1, 0, 0, 0, 0, [], 7, 0⟩

/-- C9 witness: with difficulty 1 and nonce 0, a hashimoto returning mix
hash 7 makes the consensus check accept. -/
theorem validate_consensus_small_difficulty_witness :
    validate_consensus (fun _ _ => (7, 0)) (fun _ => 0) consensusWitnessHeader = true :=
  (validate_consensus_small_difficulty (fun _ _ => (7, 0)) (fun _ => 0)
    consensusWitnessHeader (by decide) (by decide) (by decide)).mpr rfl

/-- The genesis header of the `put` frame counterexample. -/
def putFrameGenesisHeader : Header :=
  ⟨0, 0, 0, 0, 0, 0, 0, 1000, 0, 5000, 0, 0, [], 0, 0⟩

/-- A block at height 30000 (one Ethash epoch past genesis) whose parent
hash points at the stored genesis. -/
def putFrameBlock : Block :=
  ⟨⟨5, 0, 0, 0, 0, 0, 0, 0, 30000, 0, 0, 0, [], 0, 0⟩, [], []⟩

/-- Collaborators for the `put` frame counterexample: a validator run
that always rejects and leaves the database alone. -/
def putFrameCollab : Collab :=
  ⟨fun h => h.number, fun _ _ _ db _ => (false, db)⟩

/-- A processor state holding genesis under hash 5, with an epoch-0 DAG. -/
def putFrameState : ProcessorState :=
  ⟨0, ⟨[(5, ⟨putFrameGenesisHeader, 1000⟩)], [5]⟩, ⟨0⟩⟩

/-- C3 counterexample: a block in a fresh Ethash epoch that fails
validation makes `put` return `false`, yet the processor state after the
call differs from the state before it — the DAG was rebuilt for the new
epoch before validation ran. -/
theorem put_reject_state_change_counterexample :
    (EthereumProcessor.put putFrameCollab putFrameState putFrameBlock).1 = false ∧
    (EthereumProcessor.put putFrameCollab putFrameState putFrameBlock).2 ≠ putFrameState := by
  constructor <;> decide

/-- C3 (amended): whenever `put` returns `false` the chain index is
unchanged, and when the parent is absent the whole state is unchanged;
but on a rejected block the DAG may have been rebuilt and the database
reflects whatever the validator run wrote through. -/
theorem put_reject_preserves_chain (C : Collab) (s : ProcessorState) (b : Block) :
    ((EthereumProcessor.put C s b).1 = false →
      (EthereumProcessor.put C s b).2.chain = s.chain) ∧
    (s.chain.fetch b.header.parentHash = none →
      EthereumProcessor.put C s b = (false, s)) := by
  unfold EthereumProcessor.put
  cases hf : s.chain.fetch b.header.parentHash with
  | none => simp
  | some parent =>
    refine ⟨?_, by simp⟩
    intro hfalse
    by_cases hv : (C.runValidator (selectPatch b.header.number) b parent.header
        s.database (s.chain.lastHashes 256)).1 = true
    · simp [hv] at hfalse
    · simp only []
      rw [if_neg hv]

/-- C3 witness: at the counterexample input, the rejected block leaves
the chain index exactly as it was. -/
theorem put_reject_preserves_chain_witness :
    (EthereumProcessor.put putFrameCollab putFrameState putFrameBlock).2.chain =
      putFrameState.chain :=
  (put_reject_preserves_chain putFrameCollab putFrameState putFrameBlock).1 (by decide)

/-- C7: if the transaction loop aborts because some `to_valid`
conversion failed, `validate_state` reports `false` for the whole block
rather than continuing as if the failure were an execution revert. -/
theorem validateState_to_valid_failure (M : VMModel) (block : Block)
    (parent : Header) (hashes : List Nat)
    (h : execTxs M (HeaderParams.ofHeader block.header) hashes
      ⟨parent.stateRoot, [], 0, 0⟩ block.transactions = none) :
    validateState M block parent hashes = false := by
  simp only [validateState, h]

/-- A VM model whose `to_valid` always fails. -/
def failVM : VMModel :=
  ⟨fun _ _ => none, fun st _ _ _ => (st, [], 0), fun st => st,
    fun _ => 0, fun _ => 0, fun _ _ => 0, fun _ => 0⟩

/-- A block carrying one transaction, for the `to_valid` failure witness. -/
def failBlock : Block :=
  ⟨⟨0, 0, 0, 0, 0, 0, 0, 0, 1, 0, 0, 0, [], 0, 0⟩,
    [⟨0, 0, 0, TransactionAction.create, 0, [], 0, 0, 0⟩], []⟩

/-- A parent header for the `to_valid` failure witness. -/
def failParent : Header :=
  ⟨0, 0, 0, 0, 0, 0, 0, 0, 0, 0, 0, 0, [], 0, 0⟩

/-- C7 witness: with an always-failing `to_valid` and one transaction,
`validate_state` rejects the block. -/
theorem validateState_to_valid_failure_witness :
    validateState failVM failBlock failParent [] = false :=
  validateState_to_valid_failure failVM failBlock failParent [] (by decide)

/-- C8: constructing an `EthereumValidator` succeeds (does not trip an
assertion) exactly when the DAG covers the block's number and the
recent-hash slice has length at least `min(number, 256)`. -/
theorem ethereumValidator_new_preconditions (block : Block) (parent : Header)
    (db : Nat) (dag : LightDAG) (hashes : List Nat) :
    (EthereumValidator.new block parent db dag hashes).isSome = true ↔
      (dag.isValidFor block.header.number = true ∧
        min block.header.number 256 ≤ hashes.length) := by
  unfold EthereumValidator.new
  by_cases hcond : (dag.isValidFor block.header.number &&
      decide (min block.header.number 256 ≤ hashes.length)) = true
  · rw [if_pos hcond]
    simp only [Option.isSome_some, true_iff]
    simpa [Bool.and_eq_true, decide_eq_true_eq] using hcond
  · rw [if_neg hcond]
    simp only [Bool.and_eq_true, decide_eq_true_eq] at hcond
    simp only [Option.isSome_none, Bool.false_eq_true, false_iff]
    exact hcond

/-- C10: the reward pseudo-transactions — one to the beneficiary and one
per ommer, each with no caller, zero gas price, gas limit 1000000, empty
input and nonce zero — leave the accumulated receipts, block logs bloom
and block used gas unchanged; in the final equalities only the state
root reflects their execution. -/
theorem validateState_rewards_frame (M : VMModel) (block : Block) (parent : Header)
    (hashes : List Nat) (acc : ExecAcc)
    (h : execTxs M (HeaderParams.ofHeader block.header) hashes
      ⟨parent.stateRoot, [], 0, 0⟩ block.transactions = some acc) :
    (rewardTxs M block).length = 1 + block.ommers.length ∧
    (∀ tx ∈ rewardTxs M block,
      tx.caller = none ∧ tx.gasPrice = 0 ∧ tx.gasLimit = 1000000 ∧
        tx.input = [] ∧ tx.nonce = 0) ∧
    (applyRewards M block (HeaderParams.ofHeader block.header) hashes acc).receipts =
      acc.receipts ∧
    (applyRewards M block (HeaderParams.ofHeader block.header) hashes acc).bloom =
      acc.bloom ∧
    (applyRewards M block (HeaderParams.ofHeader block.header) hashes acc).usedGas =
      acc.usedGas ∧
    validateState M block parent hashes =
      ((block.header.stateRoot ==
          M.root (applyRewards M block (HeaderParams.ofHeader block.header) hashes acc).state) &&
        (block.header.receiptsRoot == M.receiptsRoot acc.receipts) &&
        (block.header.logsBloom == acc.bloom) &&
        (block.header.gasUsed == acc.usedGas)) := by
  refine ⟨?_, ?_, rfl, rfl, rfl, ?_⟩
  · simp only [rewardTxs, List.length_cons, List.length_map]
    omega
  · intro tx htx
    simp only [rewardTxs, List.mem_cons, List.mem_map] at htx
    rcases htx with rfl | ⟨u, _, rfl⟩ <;> exact ⟨rfl, rfl, rfl, rfl, rfl⟩
  · simp only [validateState, h]
    rfl

/-- A VM model for the rewards-frame witness: execution bumps the state
token. -/
def rewardVM : VMModel :=
  ⟨fun _ _ => none, fun st _ _ _ => (st + 1, [], 0), fun st => st,
    fun _ => 0, fun _ => 0, fun _ _ => 5, fun _ => 4⟩

/-- A block with no transactions and one ommer, for the rewards-frame
witness. -/
def rewardBlock : Block :=
  ⟨⟨0, 0, 9, 0, 0, 0, 0, 0, 2, 0, 0, 0, [], 0, 0⟩, [],
    [⟨0, 0, 7, 0, 0, 0, 0, 0, 1, 0, 0, 0, [], 0, 0⟩]⟩

/-- A parent header with state root 3, for the rewards-frame witness. -/
def rewardParent : Header :=
  ⟨0, 0, 0, 3, 0, 0, 0, 0, 1, 0, 0, 0, [], 0, 0⟩

/-- C10 witness: with no transactions the loop yields the initial
accumulator, and the two reward executions leave its used gas at zero. -/
theorem validateState_rewards_frame_witness :
    (applyRewards rewardVM rewardBlock (HeaderParams.ofHeader rewardBlock.header) []
      ⟨rewardParent.stateRoot, [], 0, 0⟩).usedGas = 0 :=
  (validateState_rewards_frame rewardVM rewardBlock rewardParent []
    ⟨rewardParent.stateRoot, [], 0, 0⟩ rfl).2.2.2.2.1

end EtClient
